import Mathlib

/-!
Verification of the OAuthMCP repository (split OAuth 2.0 demo: local
authorization server, OAuth-protected resource server, lazy-auth MCP client)
against its natural-language specification.

The Python sources are shallowly embedded as executable Lean definitions:

* `src/mcp_client/lazy_client.py` — the loopback callback listener
  (`CallbackHandler.do_GET`, `CallbackServer.wait_for_callback`) and the
  client auth orchestrator (`LazyAuthClient._ensure_authenticated_session`,
  `LazyAuthClient._cleanup_connection`);
* `src/local_as/auth_server.py` — the introspection handler and the route
  table built by `create_authorization_server`;
* `src/mcp_server/oauth_protected/auth_config.py` — `setup_auth_for_server`
  and `_add_discovery_endpoints`.

Definitions marked "Modelled from the spec:" embed behavior of collaborators
that the repository imports but whose source is not among the provided files
(`simple_auth_provider.py`, and the `mcp` package's `OAuthClientProvider`).
-/

namespace OAuthMCP

/-- Minimal JSON value model for the JSON bodies the handlers emit. -/
inductive Json where
  | null : Json
  | bool (b : Bool) : Json
  | num (n : Int) : Json
  | str (s : String) : Json
  | arr (xs : List Json) : Json
  | obj (fields : List (String × Json)) : Json

/-- Field lookup in a JSON object (first occurrence), `none` on non-objects. -/
def jsonField (j : Json) (key : String) : Option Json :=
  match j with
  | Json.obj fields => fields.lookup key
  | _ => none

/-! ## Query-string parsing (urllib.parse as used by `CallbackHandler.do_GET`)

`do_GET` computes `parse_qs(urlparse(self.path).query)` and dispatches on the
presence of the `code` / `error` keys.  We embed `urlparse`'s query extraction
and `parse_qs` (default flags: blank values dropped, fields without `=`
dropped, `+` decoded to space, percent-escapes decoded byte-wise). -/

/-- Hexadecimal digit test, as accepted by percent-decoding. -/
def isHexDigitChar (c : Char) : Bool :=
  c.isDigit || (('a' ≤ c) && (c ≤ 'f')) || (('A' ≤ c) && (c ≤ 'F'))

/-- Value of a hexadecimal digit. -/
def hexVal (c : Char) : Nat :=
  if c.isDigit then c.toNat - '0'.toNat
  else if ('a' ≤ c) && (c ≤ 'f') then c.toNat - 'a'.toNat + 10
  else c.toNat - 'A'.toNat + 10

/-- Percent-decoding on a character list: a `%` followed by two hex digits
becomes the denoted byte; an invalid escape is kept verbatim, exactly as
`urllib.parse.unquote` keeps it.  (Multi-byte UTF-8 sequences are modelled
byte-wise; the claims only involve ASCII keys and values.) -/
def unquoteChars : List Char → List Char
  | [] => []
  | '%' :: h₁ :: h₂ :: rest =>
    if isHexDigitChar h₁ && isHexDigitChar h₂ then
      Char.ofNat (16 * hexVal h₁ + hexVal h₂) :: unquoteChars rest
    else
      '%' :: unquoteChars (h₁ :: h₂ :: rest)
  | c :: rest => c :: unquoteChars rest

/-- Embedding of `urllib.parse.unquote_plus`: `+` becomes space, then
percent-escapes are decoded. -/
def unquote_plus (s : String) : String :=
  String.mk (unquoteChars (s.data.map fun c => if c = '+' then ' ' else c))

/-- Splitting a character list on every occurrence of a separator
(the embedding of `str.split(sep)`). -/
def splitOnCharAux (sep : Char) : List Char → List Char → List (List Char)
  | [], acc => [acc.reverse]
  | c :: rest, acc =>
    if c = sep then acc.reverse :: splitOnCharAux sep rest []
    else splitOnCharAux sep rest (c :: acc)

/-- The fields of a string split on a separator character. -/
def splitOnChar (sep : Char) (s : String) : List (List Char) :=
  splitOnCharAux sep s.data []

/-- The prefix of a character list before its first occurrence of `sep`
(the whole list when `sep` is absent). -/
def takeUntilChar (sep : Char) : List Char → List Char
  | [] => []
  | c :: rest => if c = sep then [] else c :: takeUntilChar sep rest

/-- The suffix of a character list after its first occurrence of `sep`,
`none` when `sep` is absent (the embedding of `str.split(sep, 1)`'s second
component). -/
def dropThroughChar (sep : Char) : List Char → Option (List Char)
  | [] => none
  | c :: rest => if c = sep then some rest else dropThroughChar sep rest

/-- Embedding of `urllib.parse.parse_qsl` with default flags: split on `&`,
drop empty fields and fields without `=`, drop fields with a blank value
(`keep_blank_values=False`), decode names and values with `unquote_plus`.
A field is split on its first `=` only. -/
def parse_qsl (qs : String) : List (String × String) :=
  (splitOnChar '&' qs).filterMap fun field =>
    match dropThroughChar '=' field with
    | none => none
    | some valChars =>
      if valChars.isEmpty then none
      else some (unquote_plus (String.mk (takeUntilChar '=' field)),
                 unquote_plus (String.mk valChars))

/-- Values recorded under `key` by `parse_qs`, in order of appearance. -/
def qsValues (qs : String) (key : String) : List String :=
  (parse_qsl qs).filterMap fun p => if p.1 = key then some p.2 else none

/-- Whether `key in parse_qs(qs)` holds. -/
def qsContains (qs : String) (key : String) : Bool :=
  !(qsValues qs key).isEmpty

/-- Embedding of the query extraction done by `urlparse(self.path).query`:
the fragment (after the first `#`) is removed first, then the query is the
part after the first `?`; an absent `?` gives the empty query. -/
def extractQuery (path : String) : String :=
  let beforeFrag := takeUntilChar '#' path.data
  match dropThroughChar '?' beforeFrag with
  | none => ""
  | some q => String.mk q

/-! ## Loopback callback listener (`lazy_client.py`) -/

/-- The shared record `CallbackServer.callback_data`, initialised to
`{"authorization_code": None, "state": None, "error": None}`. -/
structure CallbackData where
  authorization_code : Option String
  state : Option String
  error : Option String
deriving DecidableEq, Repr

/-- The fresh record a `CallbackServer` starts with. -/
def CallbackData.initial : CallbackData := ⟨none, none, none⟩

/-- Embedding of `CallbackHandler.do_GET`: parse the request path's query;
if a `code` parameter is present, record the code and the state (the state
defaults to `None` when absent) and answer 200; otherwise, if an `error`
parameter is present, record it and answer 400; otherwise answer 404 and
record nothing.  The HTML bodies written by the handler are elided; the
result is the HTTP status together with the updated record. -/
def do_GET (path : String) (data : CallbackData) : Nat × CallbackData :=
  let qs := extractQuery path
  if qsContains qs "code" then
    (200, { data with
              authorization_code := (qsValues qs "code").head?,
              state := (qsValues qs "state").head? })
  else if qsContains qs "error" then
    (400, { data with error := (qsValues qs "error").head? })
  else
    (404, data)

/-- Python truthiness of an optional string field of `callback_data`
(`None` and the empty string are falsy). -/
def truthy : Option String → Bool
  | none => false
  | some s => s != ""

/-- Outcome of `CallbackServer.wait_for_callback`: the returned code, the
raised OAuth error, or the raised timeout. -/
inductive WaitResult where
  | code (c : String) : WaitResult
  | oauthError (e : String) : WaitResult
  | timedOut : WaitResult
deriving DecidableEq, Repr

/-- Embedding of `CallbackServer.wait_for_callback`.  The source polls the
shared record every 0.1 s while the elapsed time is below the timeout;
`polls` is the number of loop iterations the timeout admits (a timeout of
`t` seconds admits about `10 * t` iterations, so any positive timeout admits
at least one; the default of 300 s admits 3000).  Each iteration returns the
recorded code if it is truthy, else raises the recorded error if truthy,
else sleeps; when the iterations are exhausted the timeout is raised.  The
record is taken as fixed for the duration of the wait (the listener writes
each field at most once). -/
def wait_for_callback (data : CallbackData) : Nat → WaitResult
  | 0 => WaitResult.timedOut
  | n + 1 =>
    if truthy data.authorization_code then
      WaitResult.code (data.authorization_code.getD "")
    else if truthy data.error then
      WaitResult.oauthError (data.error.getD "")
    else
      wait_for_callback data n

/-! ## Client auth orchestrator (`LazyAuthClient`, `lazy_client.py`)

The orchestrator's observable steps are recorded as events.  The OAuth dance
itself (authorize redirect, state check, code exchange) is run by the `mcp`
package's `OAuthClientProvider`, which `_ensure_authenticated_session`
constructs and hands the repository's `callback_handler`; that provider's
source is not among the provided files, so its behavior is modelled from the
spec where needed. -/

/-- Observable events of one run of the orchestrator flow. -/
inductive FlowEvent where
  | listenerStarted : FlowEvent
  | redirectIssued : FlowEvent
  | listenerStopped : FlowEvent
  | stateChecked : FlowEvent
  | codeExchanged : FlowEvent
  | transportOpened : FlowEvent
  | sessionInitialized : FlowEvent
deriving DecidableEq, Repr

/-- Embedding of the nested `callback_handler` coroutine defined inside
`_ensure_authenticated_session` (lazy_client.py lines 198–210): it calls
`callback_server.wait_for_callback(timeout=300)` and returns the pair
`(auth_code, callback_server.get_state())`; any exception is re-raised; in
both cases the `finally` block calls `callback_server.stop()`, recorded here
as the `listenerStopped` event. -/
def callback_handler (data : CallbackData) (polls : Nat) :
    Except String (String × Option String) × List FlowEvent :=
  match wait_for_callback data polls with
  | WaitResult.code c => (Except.ok (c, data.state), [FlowEvent.listenerStopped])
  | WaitResult.oauthError e =>
      (Except.error ("OAuth error: " ++ e), [FlowEvent.listenerStopped])
  | WaitResult.timedOut =>
      (Except.error "Timeout waiting for OAuth callback", [FlowEvent.listenerStopped])

/-- Result of the provider-driven OAuth dance. -/
inductive ProviderResult where
  | success : ProviderResult
  | csrfMismatch : ProviderResult
  | callbackError (e : String) : ProviderResult
deriving DecidableEq, Repr

/-- Modelled from the spec: the `mcp` package's `OAuthClientProvider`, which
`_ensure_authenticated_session` instantiates with the repository's
`callback_handler`, is not among the provided sources.  Per spec section 4.3
steps 4–7 it issues the authorize redirect, awaits the callback handler,
verifies the returned state equals the nonce it generated (a mismatch is a
fatal AuthFailed and the exchange is not reached), and only then exchanges
the code for tokens.  The repository-side `callback_handler` (including its
`finally` stop of the listener) is embedded from the source. -/
def providerFlow (generatedState : String) (data : CallbackData) (polls : Nat) :
    ProviderResult × List FlowEvent :=
  let handed := callback_handler data polls
  match handed.1 with
  | Except.ok (_, returnedState) =>
      if returnedState = some generatedState then
        (ProviderResult.success,
          FlowEvent.redirectIssued :: handed.2
            ++ [FlowEvent.stateChecked, FlowEvent.codeExchanged])
      else
        (ProviderResult.csrfMismatch,
          FlowEvent.redirectIssued :: handed.2 ++ [FlowEvent.stateChecked])
  | Except.error e =>
      (ProviderResult.callbackError e, FlowEvent.redirectIssued :: handed.2)

/-- The mutable connection state of a `LazyAuthClient` instance: `session`,
`_authenticated`, `_session_context` and `_transport_context` (contexts and
the session are abstracted to opaque numeric handles). -/
structure ClientState where
  session : Option Nat
  authenticated : Bool
  sessionContext : Option Nat
  transportContext : Option Nat
deriving DecidableEq, Repr

/-- The state of a freshly constructed `LazyAuthClient` (`__init__`). -/
def ClientState.fresh : ClientState := ⟨none, false, none, none⟩

/-- Embedding of `LazyAuthClient._cleanup_connection`: exits and clears the
session context and the session, then the transport context, and resets
`_authenticated`.  It does not touch the callback server. -/
def cleanup_connection (st : ClientState) : ClientState :=
  { st with sessionContext := none, session := none,
            transportContext := none, authenticated := false }

/-- Behavior of the collaborators one run of
`_ensure_authenticated_session` interacts with. -/
structure FlowEnv where
  /-- Whether the transport/auth machinery reaches the point of invoking the
  repository's `callback_handler`.  It may fail earlier: the transport
  connection, the server's 401 challenge, metadata discovery or client
  registration can all fail before the provider ever awaits the callback. -/
  providerReachesCallback : Bool
  /-- The state nonce the provider generated for this flow (spec section 4.3
  step 2). -/
  generatedState : String
  /-- What the loopback listener has recorded when the wait polls it. -/
  callbackData : CallbackData
  /-- Poll iterations admitted by the 300 s wait timeout. -/
  callbackPolls : Nat
  /-- Whether entering the transport context succeeds. -/
  transportOk : Bool
  /-- Whether `session.initialize()` succeeds. -/
  initOk : Bool
  /-- Handle of the session produced on success. -/
  newSessionId : Nat
deriving DecidableEq, Repr

/-- Outcome of one call to `_ensure_authenticated_session`. -/
inductive FlowOutcome where
  | ok : FlowOutcome
  | failed (msg : String) : FlowOutcome
deriving DecidableEq, Repr

/-- Embedding of `LazyAuthClient._ensure_authenticated_session` (body of the
`async with self._connection_lock` critical section).  If a session is held
and `_authenticated` is set, it returns at once.  Otherwise it cleans up any
existing connection, starts the callback server on port 3030
(`listenerStarted`), builds the OAuth provider around `callback_handler`,
opens the transport and initialises the session; the provider-driven dance
is linearised before the transport events.  On any exception the `except`
block runs `_cleanup_connection` — which does not stop the callback server —
and re-raises; `callback_server.stop()` is executed only inside
`callback_handler`'s `finally`, so it appears (as `listenerStopped`) exactly
on the paths on which the provider invokes `callback_handler`. -/
def ensure_authenticated_session (st : ClientState) (env : FlowEnv) :
    ClientState × FlowOutcome × List FlowEvent :=
  if st.session.isSome && st.authenticated then
    (st, FlowOutcome.ok, [])
  else
    let st₁ := cleanup_connection st
    if !env.providerReachesCallback then
      (cleanup_connection st₁,
        FlowOutcome.failed "authentication failed before callback",
        [FlowEvent.listenerStarted])
    else
      let danced := providerFlow env.generatedState env.callbackData env.callbackPolls
      match danced.1 with
      | ProviderResult.success =>
          if env.transportOk then
            if env.initOk then
              ({ st₁ with session := some env.newSessionId,
                          sessionContext := some env.newSessionId,
                          transportContext := some env.newSessionId,
                          authenticated := true },
                FlowOutcome.ok,
                FlowEvent.listenerStarted :: danced.2
                  ++ [FlowEvent.transportOpened, FlowEvent.sessionInitialized])
            else
              (cleanup_connection st₁,
                FlowOutcome.failed "session initialization failed",
                FlowEvent.listenerStarted :: danced.2 ++ [FlowEvent.transportOpened])
          else
            (cleanup_connection st₁, FlowOutcome.failed "transport failed",
              FlowEvent.listenerStarted :: danced.2)
      | ProviderResult.csrfMismatch =>
          (cleanup_connection st₁, FlowOutcome.failed "state mismatch (possible CSRF)",
            FlowEvent.listenerStarted :: danced.2)
      | ProviderResult.callbackError e =>
          (cleanup_connection st₁, FlowOutcome.failed e,
            FlowEvent.listenerStarted :: danced.2)

/-- Serialised execution of `n` callers of `_ensure_authenticated_session`
on one instance.  The `asyncio.Lock` created in `__init__`
(`self._connection_lock`) makes the whole body a critical section, so
concurrent callers execute it one after another; the events of all callers
are concatenated in order. -/
def ensure_authenticated_serialized (env : FlowEnv) : Nat → ClientState → ClientState × List FlowEvent
  | 0, st => (st, [])
  | n + 1, st =>
    let r := ensure_authenticated_session st env
    let rest := ensure_authenticated_serialized env n r.1
    (rest.1, r.2.2 ++ rest.2)

/-! ## Authorization server (`local_as/auth_server.py`) -/

/-- The access-token record consulted by introspection (the fields the
handler reads: `client_id`, `scopes`, `expires_at`, `resource`). -/
structure AccessToken where
  client_id : String
  scopes : List String
  expires_at : Option Int
  resource : Option String
deriving DecidableEq, Repr

/-- Modelled from the spec: `oauth_provider.load_access_token` is defined in
`simple_auth_provider.py`, which `auth_server.py` imports from its own
directory but which is not among the provided sources.  Per the spec,
introspection "never errors; an unknown or expired token yields
active:false" and "returns active:false once expires_at has passed, and
active:true ... before expiry": the token is looked up in the provider's
store and dropped once its expiry (when it has one) has passed. -/
def load_access_token (store : List (String × AccessToken)) (now : Int)
    (token : String) : Option AccessToken :=
  match store.lookup token with
  | none => none
  | some t =>
    match t.expires_at with
    | none => some t
    | some e => if e < now then none else some t

/-- A value of the parsed form body: a text field or an uploaded file
(Starlette form values are `str` or `UploadFile`). -/
inductive FormValue where
  | str (s : String) : FormValue
  | file : FormValue
deriving DecidableEq, Repr

/-- Embedding of `FormData.get`: for a repeated key Starlette's multidict
keeps the last value. -/
def formGet (form : List (String × FormValue)) (key : String) : Option FormValue :=
  form.foldl (fun acc p => if p.1 = key then some p.2 else acc) none

/-- An HTTP response carrying a JSON body (`JSONResponse(body, status)`). -/
structure JsonResponse where
  status : Nat
  body : Json

/-- The JSON body `{"active": false}`. -/
def activeFalseBody : Json := Json.obj [("active", Json.bool false)]

/-- JSON rendering of an optional integer field (`None` serialises to null). -/
def optIntJson : Option Int → Json
  | none => Json.null
  | some n => Json.num n

/-- JSON rendering of an optional string field (`None` serialises to null). -/
def optStrJson : Option String → Json
  | none => Json.null
  | some s => Json.str s

/-- Embedding of `introspect_handler` (auth_server.py lines 108–135): read
the `token` form field; if it is missing, not a string, or blank, answer
`{"active": false}` with status 400; look the token up via
`load_access_token`; if it does not resolve, answer `{"active": false}`;
otherwise answer the full introspection object.  `now` is `int(time.time())`
at the instant the handler runs. -/
def introspect_handler (store : List (String × AccessToken)) (now : Int)
    (form : List (String × FormValue)) : JsonResponse :=
  match formGet form "token" with
  | some (FormValue.str s) =>
    if s = "" then ⟨400, activeFalseBody⟩
    else
      match load_access_token store now s with
      | none => ⟨200, activeFalseBody⟩
      | some t =>
          ⟨200, Json.obj [
            ("active", Json.bool true),
            ("client_id", Json.str t.client_id),
            ("scope", Json.str (String.intercalate " " t.scopes)),
            ("exp", optIntJson t.expires_at),
            ("iat", Json.num now),
            ("token_type", Json.str "Bearer"),
            ("aud", optStrJson t.resource)]⟩
  | _ => ⟨400, activeFalseBody⟩

/-! ## Route table of `create_authorization_server` -/

/-- A request as far as routing is concerned. -/
structure HttpRequest where
  method : String
  path : String
deriving DecidableEq, Repr

/-- A handler, abstracted to a function from requests to JSON responses. -/
def Handler : Type := HttpRequest → JsonResponse

/-- One Starlette `Route(path, endpoint, methods)` entry. -/
structure AppRoute where
  path : String
  methods : List String
  handler : Handler

/-- Embedding of the first `health_handler` block (auth_server.py lines
174–178). -/
def health_handler_first : Handler := fun _ =>
  ⟨200, Json.obj [("status", Json.str "healthy"),
                  ("service", Json.str "authorization-server")]⟩

/-- Embedding of the second, duplicated `health_handler` block
(auth_server.py lines 180–185). -/
def health_handler_second : Handler := fun _ =>
  ⟨200, Json.obj [("status", Json.str "healthy"),
                  ("service", Json.str "authorization-server")]⟩

/-- Embedding of the first `oauth_authorization_server_handler` block
(auth_server.py lines 146–163); `server_url` is the stringified
`server_settings.server_url` and `mcp_scope` is `auth_settings.mcp_scope`. -/
def oauth_authorization_server_handler_first (server_url mcp_scope : String) : Handler := fun _ =>
  ⟨200, Json.obj [
    ("issuer", Json.str server_url),
    ("authorization_endpoint", Json.str (server_url ++ "/oauth/authorize")),
    ("token_endpoint", Json.str (server_url ++ "/oauth/token")),
    ("introspection_endpoint", Json.str (server_url ++ "/introspect")),
    ("registration_endpoint", Json.str (server_url ++ "/oauth/register")),
    ("revocation_endpoint", Json.str (server_url ++ "/oauth/revoke")),
    ("response_types_supported", Json.arr [Json.str "code"]),
    ("grant_types_supported",
      Json.arr [Json.str "authorization_code", Json.str "refresh_token"]),
    ("token_endpoint_auth_methods_supported",
      Json.arr [Json.str "client_secret_post", Json.str "client_secret_basic"]),
    ("scopes_supported", Json.arr [Json.str mcp_scope]),
    ("code_challenge_methods_supported", Json.arr [Json.str "S256"]),
    ("introspection_endpoint_auth_methods_supported",
      Json.arr [Json.str "client_secret_post"]),
    ("revocation_endpoint_auth_methods_supported",
      Json.arr [Json.str "client_secret_post"])]⟩

/-- Embedding of the second, duplicated `oauth_authorization_server_handler`
block (auth_server.py lines 187–205). -/
def oauth_authorization_server_handler_second (server_url mcp_scope : String) : Handler := fun _ =>
  ⟨200, Json.obj [
    ("issuer", Json.str server_url),
    ("authorization_endpoint", Json.str (server_url ++ "/oauth/authorize")),
    ("token_endpoint", Json.str (server_url ++ "/oauth/token")),
    ("introspection_endpoint", Json.str (server_url ++ "/introspect")),
    ("registration_endpoint", Json.str (server_url ++ "/oauth/register")),
    ("revocation_endpoint", Json.str (server_url ++ "/oauth/revoke")),
    ("response_types_supported", Json.arr [Json.str "code"]),
    ("grant_types_supported",
      Json.arr [Json.str "authorization_code", Json.str "refresh_token"]),
    ("token_endpoint_auth_methods_supported",
      Json.arr [Json.str "client_secret_post", Json.str "client_secret_basic"]),
    ("scopes_supported", Json.arr [Json.str mcp_scope]),
    ("code_challenge_methods_supported", Json.arr [Json.str "S256"]),
    ("introspection_endpoint_auth_methods_supported",
      Json.arr [Json.str "client_secret_post"]),
    ("revocation_endpoint_auth_methods_supported",
      Json.arr [Json.str "client_secret_post"])]⟩

/-- Embedding of the route list built by `create_authorization_server`:
the routes returned by the library's `create_auth_routes` (`base`) followed,
in source order, by `/login`, `/login/callback`, `/introspect`, the first
`/.well-known/oauth-authorization-server` registration, the first `/health`
registration, the duplicated `/health` registration and the duplicated
`/.well-known/oauth-authorization-server` registration.  The library-backed
handlers (`login`, `login_cb`) and the base routes are abstract
parameters. -/
def create_authorization_server_routes (base : List AppRoute)
    (login login_cb intro : Handler) (server_url mcp_scope : String) : List AppRoute :=
  base ++
    [⟨"/login", ["GET"], login⟩,
     ⟨"/login/callback", ["POST"], login_cb⟩,
     ⟨"/introspect", ["POST", "OPTIONS"], intro⟩,
     ⟨"/.well-known/oauth-authorization-server", ["GET", "OPTIONS"],
       oauth_authorization_server_handler_first server_url mcp_scope⟩,
     ⟨"/health", ["GET"], health_handler_first⟩,
     ⟨"/health", ["GET"], health_handler_second⟩,
     ⟨"/.well-known/oauth-authorization-server", ["GET", "OPTIONS"],
       oauth_authorization_server_handler_second server_url mcp_scope⟩]

/-- The same route list with each of the duplicated registrations appearing
exactly once (the first-registered copy is kept). -/
def deduplicated_routes (base : List AppRoute)
    (login login_cb intro : Handler) (server_url mcp_scope : String) : List AppRoute :=
  base ++
    [⟨"/login", ["GET"], login⟩,
     ⟨"/login/callback", ["POST"], login_cb⟩,
     ⟨"/introspect", ["POST", "OPTIONS"], intro⟩,
     ⟨"/.well-known/oauth-authorization-server", ["GET", "OPTIONS"],
       oauth_authorization_server_handler_first server_url mcp_scope⟩,
     ⟨"/health", ["GET"], health_handler_first⟩]

/-- Whether a route fully matches a request (path and method). -/
def routeFullMatch (r : AppRoute) (req : HttpRequest) : Bool :=
  r.path = req.path && r.methods.contains req.method

/-- Whether a route matches a request's path only (Starlette partial match,
yielding 405). -/
def routePathMatch (r : AppRoute) (req : HttpRequest) : Bool :=
  r.path = req.path

/-- First fully matching route's handler, Starlette router order. -/
def resolveRoute (routes : List AppRoute) (req : HttpRequest) : Option Handler :=
  (routes.find? (routeFullMatch · req)).map AppRoute.handler

/-- Observable behavior of the routed application on one request: the first
fully matching route handles it; otherwise a path-only match answers 405;
otherwise 404. -/
def appBehavior (routes : List AppRoute) (req : HttpRequest) : JsonResponse :=
  match resolveRoute routes req with
  | some h => h req
  | none =>
    if routes.any (routePathMatch · req) then ⟨405, Json.str "Method Not Allowed"⟩
    else ⟨404, Json.str "Not Found"⟩

/-! ## Resource-server auth configuration (`oauth_protected/auth_config.py`) -/

/-- The `IntrospectionTokenVerifier` configuration installed on the app
(its construction arguments; the verifier class itself lives in
`token_verifier.py`, outside the provided sources, and only its
configuration is relevant here). -/
structure TokenVerifierCfg where
  introspection_endpoint : String
  server_url : String
  validate_resource : Bool
deriving DecidableEq, Repr

/-- The `AuthSettings` installed on the app by `setup_auth_for_server`. -/
structure AuthSettingsCfg where
  issuer_url : String
  required_scopes : List String
  resource_server_url : String
deriving DecidableEq, Repr

/-- The FastMCP application as far as `auth_config.py` manipulates it:
its custom HTTP routes and the two attributes the setup assigns. -/
structure FastMCPApp where
  routes : List AppRoute
  token_verifier : Option TokenVerifierCfg
  auth : Option AuthSettingsCfg

/-- A FastMCP app with no custom routes and no auth configured. -/
def FastMCPApp.fresh : FastMCPApp := ⟨[], none, none⟩

/-- Embedding of `str.rstrip("/")`. -/
def rstripSlash (s : String) : String :=
  String.mk ((s.data.reverse.dropWhile (· = '/')).reverse)

/-- Whether the first list is an initial segment of the second. -/
def leadsWith : List Char → List Char → Bool
  | [], _ => true
  | _ :: _, [] => false
  | c :: cs, d :: ds => c = d && leadsWith cs ds

/-- Embedding of the `AnyHttpUrl` validation performed on the URL arguments:
a non-HTTP URL raises `ValueError`. -/
def isHttpUrl (s : String) : Bool :=
  leadsWith "http://".data s.data || leadsWith "https://".data s.data

/-- Embedding of `setup_auth_for_server` (auth_config.py lines 30–92): after
validating both URLs it builds the introspection endpoint
(`auth_server_url.rstrip("/") + "/introspect"`), installs the token verifier
and the auth settings on the app, and returns.  It registers no routes. -/
def setup_auth_for_server (app : FastMCPApp) (auth_server_url resource_server_url : String)
    (oauth_strict : Bool) (required_scopes : Option (List String)) :
    Except String FastMCPApp :=
  let scopes := required_scopes.getD ["user"]
  if isHttpUrl auth_server_url && isHttpUrl resource_server_url then
    Except.ok { app with
      token_verifier := some ⟨rstripSlash auth_server_url ++ "/introspect",
                              resource_server_url, oauth_strict⟩,
      auth := some ⟨auth_server_url, scopes, resource_server_url⟩ }
  else
    Except.error "Invalid URL configuration"

/-- The protected-resource metadata JSON built by the handler inside
`_add_discovery_endpoints` (auth_config.py lines 195–205). -/
def protected_resource_metadata (resource_server_url : String) : Json :=
  Json.obj [
    ("resource", Json.str resource_server_url),
    ("authorization_servers", Json.arr [Json.str "http://localhost:9000"]),
    ("scopes_supported", Json.arr [Json.str "user"]),
    ("bearer_methods_supported", Json.arr [Json.str "header"]),
    ("resource_documentation", Json.str (resource_server_url ++ "/docs")),
    ("introspection_endpoint", Json.str "http://localhost:9000/introspect")]

/-- Embedding of `_add_discovery_endpoints` (auth_config.py lines 187–216):
registers a GET route at `/.well-known/oauth-protected-resource` serving the
protected-resource metadata and a GET route at `/health` (whose timestamp,
`datetime.now().isoformat()`, is the parameter `now`).  No code in the
repository invokes this helper. -/
def add_discovery_endpoints (app : FastMCPApp) (resource_server_url now : String) :
    FastMCPApp :=
  { app with routes := app.routes ++
      [⟨"/.well-known/oauth-protected-resource", ["GET"],
          fun _ => ⟨200, protected_resource_metadata resource_server_url⟩⟩,
       ⟨"/health", ["GET"],
          fun _ => ⟨200, Json.obj [
            ("status", Json.str "healthy"),
            ("service", Json.str "oauth-protected-resource-server"),
            ("timestamp", Json.str now)]⟩⟩] }

/-! ## Helper lemmas -/

/-- A nonempty recorded string field is truthy. -/
lemma truthy_some {s : String} (h : s ≠ "") : truthy (some s) = true := by
  simp [truthy, h]

/-- With a truthy recorded code and at least one admitted poll, the wait
returns the recorded code. -/
lemma wait_for_callback_code (data : CallbackData) (polls : Nat)
    (h : truthy data.authorization_code = true) (hp : 1 ≤ polls) :
    wait_for_callback data polls = WaitResult.code (data.authorization_code.getD "") := by
  cases polls with
  | zero => exact absurd hp (by decide)
  | succ n => simp [wait_for_callback, h]

/-- With no truthy code, a truthy recorded error and at least one admitted
poll, the wait raises the recorded error. -/
lemma wait_for_callback_error (data : CallbackData) (polls : Nat)
    (hc : truthy data.authorization_code = false) (he : truthy data.error = true)
    (hp : 1 ≤ polls) :
    wait_for_callback data polls = WaitResult.oauthError (data.error.getD "") := by
  cases polls with
  | zero => exact absurd hp (by decide)
  | succ n => simp [wait_for_callback, hc, he]

/-- With neither field truthy, every wait times out. -/
lemma wait_for_callback_timeout (data : CallbackData)
    (hc : truthy data.authorization_code = false) (he : truthy data.error = false) :
    ∀ polls, wait_for_callback data polls = WaitResult.timedOut := by
  intro polls
  induction polls with
  | zero => rfl
  | succ n ih => simp [wait_for_callback, hc, he, ih]

/-- The wait returns a code only if that code is the recorded one. -/
lemma wait_for_callback_code_inv (data : CallbackData) :
    ∀ polls c, wait_for_callback data polls = WaitResult.code c →
      data.authorization_code = some c := by
  intro polls
  induction polls with
  | zero => intro c h; exact absurd h (by simp [wait_for_callback])
  | succ n ih =>
    intro c h
    cases hc : truthy data.authorization_code with
    | true =>
      rw [wait_for_callback, if_pos hc] at h
      cases ho : data.authorization_code with
      | none => rw [ho] at hc; exact absurd hc (by simp [truthy])
      | some s =>
        rw [ho] at h
        simp only [Option.getD_some, WaitResult.code.injEq] at h
        rw [h]
    | false =>
      cases he : truthy data.error with
      | true =>
        rw [wait_for_callback, if_neg (by simp [hc]), if_pos he] at h
        exact absurd h (by simp)
      | false =>
        rw [wait_for_callback, if_neg (by simp [hc]), if_neg (by simp [he])] at h
        exact ih c h

/-- A held, authenticated session makes `_ensure_authenticated_session`
return at once with nothing done. -/
lemma ensure_session_short_circuit (st : ClientState) (env : FlowEnv)
    (h₁ : st.session.isSome = true) (h₂ : st.authenticated = true) :
    ensure_authenticated_session st env = (st, FlowOutcome.ok, []) := by
  simp [ensure_authenticated_session, h₁, h₂]

/-- A fully successful flow from a fresh client: its result state and its
exact event trace. -/
lemma flow_success_from_fresh (env : FlowEnv)
    (hr : env.providerReachesCallback = true)
    (hc : truthy env.callbackData.authorization_code = true)
    (hs : env.callbackData.state = some env.generatedState)
    (hp : 1 ≤ env.callbackPolls)
    (ht : env.transportOk = true) (hi : env.initOk = true) :
    ensure_authenticated_session ClientState.fresh env =
      (⟨some env.newSessionId, true, some env.newSessionId, some env.newSessionId⟩,
       FlowOutcome.ok,
       [FlowEvent.listenerStarted, FlowEvent.redirectIssued, FlowEvent.listenerStopped,
        FlowEvent.stateChecked, FlowEvent.codeExchanged, FlowEvent.transportOpened,
        FlowEvent.sessionInitialized]) := by
  have hw := wait_for_callback_code env.callbackData env.callbackPolls hc hp
  have hpf : providerFlow env.generatedState env.callbackData env.callbackPolls =
      (ProviderResult.success,
       [FlowEvent.redirectIssued, FlowEvent.listenerStopped,
        FlowEvent.stateChecked, FlowEvent.codeExchanged]) := by
    simp [providerFlow, callback_handler, hw, hs]
  simp [ensure_authenticated_session, ClientState.fresh, cleanup_connection, hr, hpf, ht, hi]

/-- Once a caller holds an authenticated session, any number of further
serialised callers return at once with no events. -/
lemma serialized_stable (env : FlowEnv) :
    ∀ n (st : ClientState), st.session.isSome = true → st.authenticated = true →
      ensure_authenticated_serialized env n st = (st, []) := by
  intro n
  induction n with
  | zero => intro st _ _; rfl
  | succ m ih =>
    intro st h₁ h₂
    simp [ensure_authenticated_serialized, ensure_session_short_circuit st env h₁ h₂,
          ih st h₁ h₂]

/-! ## Claim theorems -/

/-- C8: for every positive timeout (a timeout of `t > 0` seconds admits
`polls ≥ 1` loop iterations; the default 300 s admits 3000),
`wait_for_callback` returns the recorded authorization code if one has been
recorded, raises an error carrying the recorded OAuth error if an error
outcome (and no code) was recorded, raises the timeout condition when
neither is recorded, and never returns normally with a code that was not
recorded. -/
theorem wait_for_callback_spec (data : CallbackData) (polls : Nat) (hp : 1 ≤ polls) :
    (∀ c, data.authorization_code = some c → c ≠ "" →
        wait_for_callback data polls = WaitResult.code c) ∧
    (truthy data.authorization_code = false →
      ∀ e, data.error = some e → e ≠ "" →
        wait_for_callback data polls = WaitResult.oauthError e) ∧
    (truthy data.authorization_code = false → truthy data.error = false →
      wait_for_callback data polls = WaitResult.timedOut) ∧
    (∀ c, wait_for_callback data polls = WaitResult.code c →
      data.authorization_code = some c) := by
  refine ⟨?_, ?_, ?_, ?_⟩
  · intro c hcode hne
    have h := wait_for_callback_code data polls (by rw [hcode]; exact truthy_some hne) hp
    rw [hcode] at h
    simpa using h
  · intro hc e herr hne
    have h := wait_for_callback_error data polls hc (by rw [herr]; exact truthy_some hne) hp
    rw [herr] at h
    simpa using h
  · intro hc he
    exact wait_for_callback_timeout data hc he polls
  · exact wait_for_callback_code_inv data polls

/-- Witness for C8 at a concrete recorded code and the default timeout. -/
theorem wait_for_callback_spec_witness :
    wait_for_callback ⟨some "abc123", some "xyz", none⟩ 3000 = WaitResult.code "abc123" :=
  (wait_for_callback_spec ⟨some "abc123", some "xyz", none⟩ 3000 (by decide)).1
    "abc123" rfl (by decide)

/-- C10: for every GET request received by the callback listener, the code
branch takes precedence: a query containing a `code` parameter records the
code (and the state, defaulting to none) and answers 200 even when an
`error` parameter is also present, leaving the error field unchanged; the
error branch (record the error, answer 400) is taken only when `code` is
absent and `error` present; any other query answers 404 and records
nothing; and the dispatch depends only on the request's query string, not on
its path component. -/
theorem do_GET_dispatch (p q : String) (data : CallbackData) :
    (qsContains (extractQuery p) "code" = true →
      do_GET p data =
        (200, { data with
                  authorization_code := (qsValues (extractQuery p) "code").head?,
                  state := (qsValues (extractQuery p) "state").head? })) ∧
    (qsContains (extractQuery p) "code" = false →
      qsContains (extractQuery p) "error" = true →
      do_GET p data = (400, { data with error := (qsValues (extractQuery p) "error").head? })) ∧
    (qsContains (extractQuery p) "code" = false →
      qsContains (extractQuery p) "error" = false →
      do_GET p data = (404, data)) ∧
    (extractQuery p = extractQuery q → do_GET p data = do_GET q data) := by
  refine ⟨?_, ?_, ?_, ?_⟩
  · intro h; simp [do_GET, h]
  · intro h₁ h₂; simp [do_GET, h₁, h₂]
  · intro h₁ h₂; simp [do_GET, h₁, h₂]
  · intro h; simp [do_GET, h]

/-- Witness for C10: a callback carrying both `code` and `error` takes the
code branch with status 200 and an untouched error field, and the same query
on a different path behaves identically. -/
theorem do_GET_dispatch_witness :
    do_GET "/callback?code=abc&error=denied&state=xyz" CallbackData.initial =
      (200, ⟨some "abc", some "xyz", none⟩) ∧
    do_GET "/callback?code=abc&error=denied&state=xyz" CallbackData.initial =
      do_GET "/other-path?code=abc&error=denied&state=xyz" CallbackData.initial := by
  constructor
  · exact (do_GET_dispatch "/callback?code=abc&error=denied&state=xyz"
      "/other-path?code=abc&error=denied&state=xyz" CallbackData.initial).1 (by rfl)
  · exact (do_GET_dispatch "/callback?code=abc&error=denied&state=xyz"
      "/other-path?code=abc&error=denied&state=xyz" CallbackData.initial).2.2.2 (by rfl)

/-- C1: in every run of the provider-driven authorization flow fed by the
repository's `callback_handler`, the state returned by the loopback callback
is verified against the nonce generated for this flow before any code
exchange: a run whose returned state differs from the nonce fails
(AuthFailed, possible CSRF) and its trace contains no code-exchange event; a
run that returned a code with a mismatched state ends as `csrfMismatch`; and
any trace containing a code-exchange event had a matching state, with the
state check strictly preceding the exchange. -/
theorem state_verified_before_code_exchange (gs : String) (data : CallbackData) (polls : Nat) :
    (data.state ≠ some gs →
      (providerFlow gs data polls).1 ≠ ProviderResult.success ∧
      FlowEvent.codeExchanged ∉ (providerFlow gs data polls).2) ∧
    (∀ c, wait_for_callback data polls = WaitResult.code c → data.state ≠ some gs →
      (providerFlow gs data polls).1 = ProviderResult.csrfMismatch) ∧
    (FlowEvent.codeExchanged ∈ (providerFlow gs data polls).2 →
      data.state = some gs ∧
      (providerFlow gs data polls).2.indexOf FlowEvent.stateChecked <
        (providerFlow gs data polls).2.indexOf FlowEvent.codeExchanged) := by
  cases hw : wait_for_callback data polls with
  | code c =>
    by_cases hs : data.state = some gs
    · have hpf : providerFlow gs data polls =
          (ProviderResult.success,
           [FlowEvent.redirectIssued, FlowEvent.listenerStopped,
            FlowEvent.stateChecked, FlowEvent.codeExchanged]) := by
        simp [providerFlow, callback_handler, hw, hs]
      exact ⟨fun h => absurd hs h, fun c₂ _ h => absurd hs h,
             fun _ => ⟨hs, by rw [hpf]; decide⟩⟩
    · have hpf : providerFlow gs data polls =
          (ProviderResult.csrfMismatch,
           [FlowEvent.redirectIssued, FlowEvent.listenerStopped,
            FlowEvent.stateChecked]) := by
        simp [providerFlow, callback_handler, hw, hs]
      refine ⟨fun _ => ⟨by rw [hpf]; decide, by rw [hpf]; decide⟩,
              fun c₂ _ _ => by rw [hpf],
              fun hmem => absurd (by rw [hpf] at hmem; exact hmem) (by decide)⟩
  | oauthError e =>
    have hpf : providerFlow gs data polls =
        (ProviderResult.callbackError ("OAuth error: " ++ e),
         [FlowEvent.redirectIssued, FlowEvent.listenerStopped]) := by
      simp [providerFlow, callback_handler, hw]
    refine ⟨fun _ => ⟨by simp [hpf], by simp [hpf]⟩,
            fun c₂ hw₂ _ => absurd hw₂ (by simp),
            fun hmem => by simp [hpf] at hmem⟩
  | timedOut =>
    have hpf : providerFlow gs data polls =
        (ProviderResult.callbackError "Timeout waiting for OAuth callback",
         [FlowEvent.redirectIssued, FlowEvent.listenerStopped]) := by
      simp [providerFlow, callback_handler, hw]
    refine ⟨fun _ => ⟨by simp [hpf], by simp [hpf]⟩,
            fun c₂ hw₂ _ => absurd hw₂ (by simp),
            fun hmem => by simp [hpf] at hmem⟩

/-- Witness for C1 at a recorded callback whose state does not match the
generated nonce: the flow does not succeed and no exchange event occurs. -/
theorem state_verified_before_code_exchange_witness :
    (providerFlow "xyz" ⟨some "abc", some "evil", none⟩ 3000).1 ≠ ProviderResult.success ∧
    FlowEvent.codeExchanged ∉ (providerFlow "xyz" ⟨some "abc", some "evil", none⟩ 3000).2 :=
  (state_verified_before_code_exchange "xyz" ⟨some "abc", some "evil", none⟩ 3000).1
    (by decide)

/-- C2 (refuted by the code): evaluating `_ensure_authenticated_session` on
a fresh client at a run where the transport/auth machinery fails before the
provider ever invokes `callback_handler` — for example the transport
connection to the server is refused, or client registration fails — shows
the callback server is started but never stopped: `stop()` lives only in
`callback_handler`'s `finally`, and the `except` path's
`_cleanup_connection` does not touch the callback server, so port 3030
stays bound. -/
theorem listener_leaked_on_early_failure :
    (ensure_authenticated_session ClientState.fresh
        ⟨false, "state-nonce", CallbackData.initial, 3000, true, true, 1⟩).2.2 =
      [FlowEvent.listenerStarted] ∧
    FlowEvent.listenerStopped ∉
      (ensure_authenticated_session ClientState.fresh
        ⟨false, "state-nonce", CallbackData.initial, 3000, true, true, 1⟩).2.2 ∧
    (ensure_authenticated_session ClientState.fresh
        ⟨false, "state-nonce", CallbackData.initial, 3000, true, true, 1⟩).2.1 =
      FlowOutcome.failed "authentication failed before callback" := by
  decide

/-- C7: if the orchestrator already holds a session and is marked
authenticated (which covers every session with a non-expired access token),
`_ensure_authenticated_session` returns immediately: the state — including
the session — is unmodified and no event occurs (no callback listener is
started, no network step runs). -/
theorem ensure_authenticated_returns_immediately (st : ClientState) (env : FlowEnv)
    (h₁ : st.session.isSome = true) (h₂ : st.authenticated = true) :
    ensure_authenticated_session st env = (st, FlowOutcome.ok, []) :=
  ensure_session_short_circuit st env h₁ h₂

/-- Witness for C7 at a concrete authenticated client. -/
theorem ensure_authenticated_returns_immediately_witness :
    ensure_authenticated_session ⟨some 3, true, some 3, some 3⟩
        ⟨true, "s", CallbackData.initial, 1, true, true, 2⟩ =
      (⟨some 3, true, some 3, some 3⟩, FlowOutcome.ok, []) :=
  ensure_authenticated_returns_immediately ⟨some 3, true, some 3, some 3⟩
    ⟨true, "s", CallbackData.initial, 1, true, true, 2⟩ rfl rfl

/-- C4: for every `N ≥ 1`, `N` callers of `_ensure_authenticated_session`
on a fresh instance — serialised by the instance's `asyncio.Lock` — run
exactly one authorization flow when that flow succeeds: the combined trace
contains exactly one authorize redirect and one code exchange, and every
later caller observes the session established by the first. -/
theorem single_flow_under_serialized_callers (env : FlowEnv) (N : Nat)
    (hN : 1 ≤ N)
    (hr : env.providerReachesCallback = true)
    (hc : truthy env.callbackData.authorization_code = true)
    (hs : env.callbackData.state = some env.generatedState)
    (hp : 1 ≤ env.callbackPolls)
    (ht : env.transportOk = true) (hi : env.initOk = true) :
    (ensure_authenticated_serialized env N ClientState.fresh).2.count
        FlowEvent.redirectIssued = 1 ∧
    (ensure_authenticated_serialized env N ClientState.fresh).2.count
        FlowEvent.codeExchanged = 1 ∧
    (ensure_authenticated_serialized env N ClientState.fresh).1.session =
      some env.newSessionId ∧
    (ensure_authenticated_serialized env N ClientState.fresh).1.authenticated = true := by
  obtain ⟨m, rfl⟩ : ∃ m, N = m + 1 := ⟨N - 1, by omega⟩
  have h₁ := flow_success_from_fresh env hr hc hs hp ht hi
  have hstable := serialized_stable env m
    ⟨some env.newSessionId, true, some env.newSessionId, some env.newSessionId⟩ rfl rfl
  simp [ensure_authenticated_serialized, h₁, hstable]

/-- Witness for C4 at three serialised callers of a successful flow. -/
theorem single_flow_under_serialized_callers_witness :
    (ensure_authenticated_serialized ⟨true, "xyz", ⟨some "abc", some "xyz", none⟩,
        3000, true, true, 7⟩ 3 ClientState.fresh).2.count FlowEvent.redirectIssued = 1 ∧
    (ensure_authenticated_serialized ⟨true, "xyz", ⟨some "abc", some "xyz", none⟩,
        3000, true, true, 7⟩ 3 ClientState.fresh).2.count FlowEvent.codeExchanged = 1 ∧
    (ensure_authenticated_serialized ⟨true, "xyz", ⟨some "abc", some "xyz", none⟩,
        3000, true, true, 7⟩ 3 ClientState.fresh).1.session = some 7 ∧
    (ensure_authenticated_serialized ⟨true, "xyz", ⟨some "abc", some "xyz", none⟩,
        3000, true, true, 7⟩ 3 ClientState.fresh).1.authenticated = true :=
  single_flow_under_serialized_callers ⟨true, "xyz", ⟨some "abc", some "xyz", none⟩,
      3000, true, true, 7⟩ 3 (by decide) rfl (by decide) rfl (by decide) rfl rfl

/-- C3: the introspection handler is a total function (the embedding has no
failure outcome, matching the handler body, which raises nothing), and every
request whose `token` form field is absent, not a string, blank, or does not
resolve to a stored access token — including tokens dropped because their
expiry has passed — receives a JSON response whose body is
`{"active": false}`. -/
theorem introspect_inactive_on_unresolved_token (store : List (String × AccessToken))
    (now : Int) (form : List (String × FormValue))
    (h : ∀ s, formGet form "token" = some (FormValue.str s) → s ≠ "" →
      load_access_token store now s = none) :
    (introspect_handler store now form).body = activeFalseBody := by
  unfold introspect_handler
  cases hg : formGet form "token" with
  | none => rfl
  | some v =>
    cases v with
    | file => rfl
    | str s =>
      by_cases hs : s = ""
      · simp [hs]
      · simp [hs, h s hg hs]

/-- Witness for C3 at a token whose expiry has passed. -/
theorem introspect_inactive_on_unresolved_token_witness :
    (introspect_handler [("tok", ⟨"client-1", ["user"], some 5, none⟩)] 10
        [("token", FormValue.str "tok")]).body = activeFalseBody :=
  introspect_inactive_on_unresolved_token
    [("tok", ⟨"client-1", ["user"], some 5, none⟩)] 10
    [("token", FormValue.str "tok")]
    (fun s hs _ => by
      have hs₂ : FormValue.str "tok" = FormValue.str s := by
        simpa [formGet] using hs
      cases hs₂
      rfl)

/-- C5: every request whose `token` form field resolves to a stored access
token receives status 200 and a JSON object whose `active` field is true,
whose `client_id` equals the token's client id, whose `scope` equals the
token's scopes joined by single spaces, whose `exp` equals the token's
`expires_at`, whose `token_type` is "Bearer", and whose `aud` equals the
token's resource. -/
theorem introspect_active_token_fields (store : List (String × AccessToken))
    (now : Int) (form : List (String × FormValue)) (s : String) (t : AccessToken)
    (hg : formGet form "token" = some (FormValue.str s)) (hs : s ≠ "")
    (hl : load_access_token store now s = some t) :
    (introspect_handler store now form).status = 200 ∧
    jsonField (introspect_handler store now form).body "active" = some (Json.bool true) ∧
    jsonField (introspect_handler store now form).body "client_id" =
      some (Json.str t.client_id) ∧
    jsonField (introspect_handler store now form).body "scope" =
      some (Json.str (String.intercalate " " t.scopes)) ∧
    jsonField (introspect_handler store now form).body "exp" =
      some (optIntJson t.expires_at) ∧
    jsonField (introspect_handler store now form).body "token_type" =
      some (Json.str "Bearer") ∧
    jsonField (introspect_handler store now form).body "aud" =
      some (optStrJson t.resource) := by
  have hh : introspect_handler store now form =
      ⟨200, Json.obj [
        ("active", Json.bool true),
        ("client_id", Json.str t.client_id),
        ("scope", Json.str (String.intercalate " " t.scopes)),
        ("exp", optIntJson t.expires_at),
        ("iat", Json.num now),
        ("token_type", Json.str "Bearer"),
        ("aud", optStrJson t.resource)]⟩ := by
    simp [introspect_handler, hg, hs, hl]
  rw [hh]
  refine ⟨rfl, ?_, ?_, ?_, ?_, ?_, ?_⟩ <;> rfl

/-- Witness for C5 at a concrete stored token. -/
theorem introspect_active_token_fields_witness :
    (introspect_handler
        [("tok", ⟨"client-1", ["user", "admin"], some 100, some "http://localhost:8001"⟩)]
        50 [("token", FormValue.str "tok")]).status = 200 ∧
    jsonField (introspect_handler
        [("tok", ⟨"client-1", ["user", "admin"], some 100, some "http://localhost:8001"⟩)]
        50 [("token", FormValue.str "tok")]).body "active" = some (Json.bool true) ∧
    jsonField (introspect_handler
        [("tok", ⟨"client-1", ["user", "admin"], some 100, some "http://localhost:8001"⟩)]
        50 [("token", FormValue.str "tok")]).body "client_id" = some (Json.str "client-1") ∧
    jsonField (introspect_handler
        [("tok", ⟨"client-1", ["user", "admin"], some 100, some "http://localhost:8001"⟩)]
        50 [("token", FormValue.str "tok")]).body "scope" = some (Json.str "user admin") ∧
    jsonField (introspect_handler
        [("tok", ⟨"client-1", ["user", "admin"], some 100, some "http://localhost:8001"⟩)]
        50 [("token", FormValue.str "tok")]).body "exp" = some (optIntJson (some 100)) ∧
    jsonField (introspect_handler
        [("tok", ⟨"client-1", ["user", "admin"], some 100, some "http://localhost:8001"⟩)]
        50 [("token", FormValue.str "tok")]).body "token_type" = some (Json.str "Bearer") ∧
    jsonField (introspect_handler
        [("tok", ⟨"client-1", ["user", "admin"], some 100, some "http://localhost:8001"⟩)]
        50 [("token", FormValue.str "tok")]).body "aud" =
      some (optStrJson (some "http://localhost:8001")) :=
  introspect_active_token_fields
    [("tok", ⟨"client-1", ["user", "admin"], some 100, some "http://localhost:8001"⟩)]
    50 [("token", FormValue.str "tok")] "tok"
    ⟨"client-1", ["user", "admin"], some 100, some "http://localhost:8001"⟩
    rfl (by decide) rfl

/-- Appending a non-matching element does not change `find?`. -/
lemma find?_concat_of_false {α : Type} (p : α → Bool) (l : List α) (x : α)
    (hx : p x = false) : (l ++ [x]).find? p = l.find? p := by
  rw [List.find?_append]
  cases h : l.find? p with
  | some y => rfl
  | none => simp [List.find?, hx, Option.none_or]

/-- Appending an element that matches exactly when some already-present
element matches does not change `find?` (first-match resolution). -/
lemma find?_concat_of_dup {α : Type} (p : α → Bool) (l : List α) (x r : α)
    (hr : r ∈ l) (hpx : p x = p r) : (l ++ [x]).find? p = l.find? p := by
  cases hx : p x with
  | false => exact find?_concat_of_false p l x hx
  | true =>
    have hsome : (l.find? p).isSome := by
      exact List.find?_isSome.mpr ⟨r, hr, by rw [← hpx, hx]⟩
    rw [List.find?_append]
    cases h : l.find? p with
    | some y => rfl
    | none => rw [h] at hsome; exact absurd hsome (by simp)

/-- Appending an element whose path-only match agrees with an
already-present element does not change `any`. -/
lemma any_concat_of_dup {α : Type} (q : α → Bool) (l : List α) (x r : α)
    (hr : r ∈ l) (hq : q x = q r) : (l ++ [x]).any q = l.any q := by
  rw [List.any_append]
  cases hx : q x with
  | false => simp [List.any, hx]
  | true =>
    have : l.any q = true := List.any_eq_true.mpr ⟨r, hr, by rw [← hq, hx]⟩
    simp [this, List.any, hx]

/-- C9: `create_authorization_server` registers `/health` twice and
`/.well-known/oauth-authorization-server` twice, but the two handlers of
each pair are extensionally (indeed definitionally) equal, and under
first-match route resolution the application's observable behavior on every
request equals that of the application with each duplicated route
registered exactly once (the first-registered copy). -/
theorem duplicate_routes_equivalent (base : List AppRoute)
    (login login_cb intro : Handler) (server_url mcp_scope : String) :
    health_handler_first = health_handler_second ∧
    oauth_authorization_server_handler_first server_url mcp_scope =
      oauth_authorization_server_handler_second server_url mcp_scope ∧
    (create_authorization_server_routes base login login_cb intro server_url
        mcp_scope).countP (fun r => r.path == "/health") =
      base.countP (fun r => r.path == "/health") + 2 ∧
    (create_authorization_server_routes base login login_cb intro server_url
        mcp_scope).countP
        (fun r => r.path == "/.well-known/oauth-authorization-server") =
      base.countP (fun r => r.path == "/.well-known/oauth-authorization-server") + 2 ∧
    ∀ req, appBehavior (create_authorization_server_routes base login login_cb intro
        server_url mcp_scope) req =
      appBehavior (deduplicated_routes base login login_cb intro server_url mcp_scope)
        req := by
  have hsplit : create_authorization_server_routes base login login_cb intro
      server_url mcp_scope =
      (deduplicated_routes base login login_cb intro server_url mcp_scope ++
        [⟨"/health", ["GET"], health_handler_second⟩]) ++
        [⟨"/.well-known/oauth-authorization-server", ["GET", "OPTIONS"],
          oauth_authorization_server_handler_second server_url mcp_scope⟩] := by
    simp [create_authorization_server_routes, deduplicated_routes]
  refine ⟨rfl, rfl, ?_, ?_, ?_⟩
  · simp only [create_authorization_server_routes, List.countP_append]
    rfl
  · simp only [create_authorization_server_routes, List.countP_append]
    rfl
  · intro req
    have hmemW : (⟨"/.well-known/oauth-authorization-server", ["GET", "OPTIONS"],
        oauth_authorization_server_handler_first server_url mcp_scope⟩ : AppRoute) ∈
        deduplicated_routes base login login_cb intro server_url mcp_scope ++
          [⟨"/health", ["GET"], health_handler_second⟩] := by
      simp [deduplicated_routes]
    have hmemH : (⟨"/health", ["GET"], health_handler_first⟩ : AppRoute) ∈
        deduplicated_routes base login login_cb intro server_url mcp_scope := by
      simp [deduplicated_routes]
    have hfind : (create_authorization_server_routes base login login_cb intro
        server_url mcp_scope).find? (routeFullMatch · req) =
        (deduplicated_routes base login login_cb intro server_url mcp_scope).find?
          (routeFullMatch · req) := by
      rw [hsplit]
      rw [find?_concat_of_dup (routeFullMatch · req) _
        ⟨"/.well-known/oauth-authorization-server", ["GET", "OPTIONS"],
          oauth_authorization_server_handler_second server_url mcp_scope⟩
        ⟨"/.well-known/oauth-authorization-server", ["GET", "OPTIONS"],
          oauth_authorization_server_handler_first server_url mcp_scope⟩ hmemW rfl]
      rw [find?_concat_of_dup (routeFullMatch · req) _
        ⟨"/health", ["GET"], health_handler_second⟩
        ⟨"/health", ["GET"], health_handler_first⟩ hmemH rfl]
    have hany : (create_authorization_server_routes base login login_cb intro
        server_url mcp_scope).any (routePathMatch · req) =
        (deduplicated_routes base login login_cb intro server_url mcp_scope).any
          (routePathMatch · req) := by
      rw [hsplit]
      rw [any_concat_of_dup (routePathMatch · req) _
        ⟨"/.well-known/oauth-authorization-server", ["GET", "OPTIONS"],
          oauth_authorization_server_handler_second server_url mcp_scope⟩
        ⟨"/.well-known/oauth-authorization-server", ["GET", "OPTIONS"],
          oauth_authorization_server_handler_first server_url mcp_scope⟩ hmemW rfl]
      rw [any_concat_of_dup (routePathMatch · req) _
        ⟨"/health", ["GET"], health_handler_second⟩
        ⟨"/health", ["GET"], health_handler_first⟩ hmemH rfl]
    simp only [appBehavior, resolveRoute, hfind, hany]

/-- C6 is refuted by the repository's code: configuring authentication via
`setup_auth_for_server` on a fresh FastMCP app (default authorization-server
and resource-server URLs) registers no route at all, so in particular no
GET route at `/.well-known/oauth-protected-resource` exists afterwards; the
helper that would register it, `_add_discovery_endpoints`, is never
invoked. -/
theorem setup_auth_registers_no_discovery_route :
    (setup_auth_for_server FastMCPApp.fresh "http://localhost:9000"
        "http://0.0.0.0:8080" false none).map (fun a => a.routes.length) =
      Except.ok 0 ∧
    (setup_auth_for_server FastMCPApp.fresh "http://localhost:9000"
        "http://0.0.0.0:8080" false none).map (fun a =>
        (resolveRoute a.routes ⟨"GET", "/.well-known/oauth-protected-resource"⟩).isSome) =
      Except.ok false := by
  constructor <;> rfl

/-- C6 amended: `setup_auth_for_server` installs the token verifier and the
auth settings but leaves the app's routes untouched; the uninvoked helper
`_add_discovery_endpoints` is what registers an unauthenticated GET endpoint
at `/.well-known/oauth-protected-resource`, and that endpoint's JSON
contains `resource` (this server's URL), `authorization_servers`,
`scopes_supported`, and `bearer_methods_supported = ["header"]`. -/
theorem discovery_endpoint_shape_amended (app : FastMCPApp)
    (asu rsu url now : String) (strict : Bool) (scopes : Option (List String))
    (h₁ : isHttpUrl asu = true) (h₂ : isHttpUrl rsu = true) :
    (setup_auth_for_server app asu rsu strict scopes).map FastMCPApp.routes =
      Except.ok app.routes ∧
    (add_discovery_endpoints app url now).routes.length = app.routes.length + 2 ∧
    appBehavior (add_discovery_endpoints FastMCPApp.fresh url now).routes
        ⟨"GET", "/.well-known/oauth-protected-resource"⟩ =
      ⟨200, protected_resource_metadata url⟩ ∧
    jsonField (protected_resource_metadata url) "resource" = some (Json.str url) ∧
    jsonField (protected_resource_metadata url) "authorization_servers" =
      some (Json.arr [Json.str "http://localhost:9000"]) ∧
    jsonField (protected_resource_metadata url) "scopes_supported" =
      some (Json.arr [Json.str "user"]) ∧
    jsonField (protected_resource_metadata url) "bearer_methods_supported" =
      some (Json.arr [Json.str "header"]) := by
  refine ⟨?_, by simp [add_discovery_endpoints], rfl, rfl, rfl, rfl, rfl⟩
  simp [setup_auth_for_server, Except.map, h₁, h₂]

/-- Witness for the amended C6 at the default URLs. -/
theorem discovery_endpoint_shape_amended_witness :
    (setup_auth_for_server FastMCPApp.fresh "http://localhost:9000"
        "http://localhost:8001" false none).map FastMCPApp.routes =
      Except.ok FastMCPApp.fresh.routes ∧
    (add_discovery_endpoints FastMCPApp.fresh "http://localhost:8001"
        "2026-10-12T00:00:00").routes.length = FastMCPApp.fresh.routes.length + 2 ∧
    appBehavior (add_discovery_endpoints FastMCPApp.fresh "http://localhost:8001"
        "2026-10-12T00:00:00").routes
        ⟨"GET", "/.well-known/oauth-protected-resource"⟩ =
      ⟨200, protected_resource_metadata "http://localhost:8001"⟩ ∧
    jsonField (protected_resource_metadata "http://localhost:8001") "resource" =
      some (Json.str "http://localhost:8001") ∧
    jsonField (protected_resource_metadata "http://localhost:8001")
        "authorization_servers" = some (Json.arr [Json.str "http://localhost:9000"]) ∧
    jsonField (protected_resource_metadata "http://localhost:8001")
        "scopes_supported" = some (Json.arr [Json.str "user"]) ∧
    jsonField (protected_resource_metadata "http://localhost:8001")
        "bearer_methods_supported" = some (Json.arr [Json.str "header"]) :=
  discovery_endpoint_shape_amended FastMCPApp.fresh "http://localhost:9000"
    "http://localhost:8001" "http://localhost:8001" "2026-10-12T00:00:00"
    false none (by rfl) (by rfl)

end OAuthMCP
